import Mathlib

/-
Verification of the MyFlow tracker analysis core.

Shallow embedding of the analysis pipeline implemented in
src/python/analysis_logic.py, src/python/app.py and src/python/server.py.
Numbers are modelled by exact rationals (and reals where the source takes a
square root); pandas numeric coercion with a default (to_numeric + fillna,
dict .get with a default) is modelled by Option with getD.

Scope note on the pandas frame: a json_normalize frame has a column exactly
when at least one record of the batch supplies the corresponding field.
The embedding assumes the non-date schema columns
(cognitive_load.study_minutes, emotional.stress, symptoms.tic_count,
physiological.sleep_hours, custom) are present, i.e. at least one record
supplies each of those fields; a record-level missing or non-numeric value
is modelled as Option.none.  The date column, which claim C9 is about, is
modelled precisely: it is absent exactly when no record has a date, in
which case df[date] at line 112 of analysis_logic.py raises KeyError.  The
remaining failing lookup is the column named tics in
determine_sleep_vulnerability, a name the normalized frame never has (its
symptom column is symptoms.tic_count).  Both failures are modelled by
Except; an empty batch already fails at the first column access of
line 64.
-/

namespace MyFlow

/-- Rounding of a rational to the nearest integer with ties to even, the
behaviour of Python round(). -/
def roundHalfEvenQ (q : ℚ) : ℤ :=
  if q - ⌊q⌋ < 1/2 then ⌊q⌋
  else if 1/2 < q - ⌊q⌋ then ⌊q⌋ + 1
  else if 2 ∣ ⌊q⌋ then ⌊q⌋ else ⌊q⌋ + 1

/-- Python round(q, d): round to d decimal digits, ties to even. -/
def roundQ (d : ℕ) (q : ℚ) : ℚ :=
  (roundHalfEvenQ (q * 10 ^ d) : ℚ) / 10 ^ d

/-- Arithmetic mean of a list of rationals (statistics.mean / pandas mean;
the source only applies it to nonempty lists). -/
def qmean (l : List ℚ) : ℚ := l.sum / l.length

/-- Sum of squared deviations from the mean. -/
def sqDev (l : List ℚ) : ℚ := (l.map (fun x => (x - qmean l) ^ 2)).sum

/-- Sample variance (pandas default, ddof = 1): sum of squared deviations
divided by n - 1. -/
def sampleVar (l : List ℚ) : ℚ := sqDev l / ((l.length : ℚ) - 1)

/-- One entry of the custom factor list: {name, level, effect}; a missing
level or effect is already replaced by 0 (factor.get with default 0). -/
structure CustomFactor where
  name : String
  level : ℚ
  effect : ℚ
  deriving DecidableEq, Repr

/-- One raw daily record of the documented schema.  Option.none models a
missing (or non-numeric) field, resolved by each consumer's own default. -/
structure RawRec where
  date : Option String
  study_minutes : Option ℚ
  stress : Option ℚ
  tic_count : Option ℚ
  sleep_hours : Option ℚ
  custom : List CustomFactor
  deriving DecidableEq, Repr

namespace AnalysisLogic

/- Embedding of src/python/analysis_logic.py. -/

/-- Study-time normalization (lines 70-71): clip at 900 minutes, divide by
900, scale to 0-10. -/
def normalized_study (m : ℚ) : ℚ := min m 900 / 900 * 10

/-- Sum of the positive impacts level * effect of a day's custom factors
(process_custom, lines 77-89, positive branch). -/
def posImpact (cs : List CustomFactor) : ℚ :=
  ((cs.map (fun f => f.level * f.effect)).filter (fun i => 0 < i)).sum

/-- Sum of the negative impacts level * effect of a day's custom factors
(process_custom, lines 77-89, negative branch; kept negative). -/
def negImpact (cs : List CustomFactor) : ℚ :=
  ((cs.map (fun f => f.level * f.effect)).filter (fun i => i < 0)).sum

/-- One row of the normalized frame after the numeric coercions of
lines 64-67 and the derived columns of lines 70-92. -/
structure Row where
  date : Option String
  study : ℚ
  stress : ℚ
  tic : ℚ
  sleep : ℚ
  nstudy : ℚ
  pos_custom : ℚ
  neg_custom : ℚ
  deriving DecidableEq, Repr

/-- Numeric coercion of one record (lines 64-67: study, stress and tic
default to 0, sleep_hours defaults to the healthy threshold 8.0) together
with the derived columns normalized_study (lines 70-71) and the custom
impacts (lines 91-92). -/
def coerceRow (r : RawRec) : Row :=
  { date := r.date
    study := r.study_minutes.getD 0
    stress := r.stress.getD 0
    tic := r.tic_count.getD 0
    sleep := r.sleep_hours.getD 8
    nstudy := normalized_study (r.study_minutes.getD 0)
    pos_custom := posImpact r.custom
    neg_custom := negImpact r.custom }

/-- determine_sleep_vulnerability (lines 21-53).  The baseline excludes the
last row when more than one row exists (line 27).  Low-sleep rows are those
with sleep_hours at most 6.0 (line 34); the emptiness test of line 36 is
subsumed by the count test.  When at least 3 low-sleep rows exist, line 41
selects the frame column named tics; the normalized frame has no such
column (its symptom column is symptoms.tic_count), so pandas raises
KeyError and the function never returns a verdict on that path. -/
def determine_sleep_vulnerability (rows : List Row) : Except String Bool :=
  let baseline := if 1 < rows.length then rows.dropLast else rows
  let lowSleep := baseline.filter (fun r => r.sleep ≤ 6)
  if lowSleep.length < 3 then .ok false
  else .error "KeyError: tics"

/-- One row of the metrics frame built in lines 111-120. -/
structure MDay where
  date : Option String
  tics : ℚ
  TNL : ℚ
  stress_contrib : ℚ
  study_contrib : ℚ
  pos_custom_contrib : ℚ
  sleep_penalty_contrib : ℚ
  raw_neg_impact : ℚ
  deriving DecidableEq, Repr

/-- The sleep penalty of one row (lines 97-100): zero unless the batch
verdict is vulnerable, else (8.0 - sleep).clip(lower=0) * 1.5. -/
def sleepPenalty (vuln : Bool) (r : Row) : ℚ :=
  if vuln then max 0 (8 - r.sleep) * (3/2) else 0

/-- One metrics row (lines 103-120): TNL sums stress, normalized study,
positive custom impact and the conditional sleep penalty; the negative
custom impact is kept out of TNL and only stored as raw_neg_impact. -/
def metricRow (vuln : Bool) (r : Row) : MDay :=
  { date := r.date
    tics := r.tic
    TNL := r.stress + r.nstudy + r.pos_custom + sleepPenalty vuln r
    stress_contrib := r.stress
    study_contrib := r.nstudy
    pos_custom_contrib := r.pos_custom
    sleep_penalty_contrib := sleepPenalty vuln r
    raw_neg_impact := r.neg_custom }

/-- calculate_daily_metrics (lines 56-122): coerce the rows, consult the
vulnerability analyzer (line 95), and build the metrics rows.  Error
paths, in the order the source hits them: an empty batch gives a frame
with no columns, so the first coercion at line 64 raises KeyError; the
analyzer may raise the KeyError of line 41; and when no record of the
batch has a date the frame has no date column, so df[date] at line 112
raises KeyError.  A record-level missing date in a batch where some other
record has one only yields NaT in the date column, and the row is kept.
The final set_index(date).sort_index() only reorders rows for
presentation and is not modelled; every per-day claim below is
order-independent. -/
def calculate_daily_metrics (data : List RawRec) : Except String (List MDay) :=
  if data = [] then .error "KeyError: cognitive_load.study_minutes"
  else
    match determine_sleep_vulnerability (data.map coerceRow) with
    | .error e => .error e
    | .ok vuln =>
      if data.all (fun r => r.date = none) then .error "KeyError: date"
      else .ok ((data.map coerceRow).map (metricRow vuln))

/-- One row of the metrics frame as consumed by the pacing detector (only
the TNL and tics columns are read there). -/
structure NDay where
  TNL : ℚ
  tics : ℚ
  deriving DecidableEq, Repr

/-- The five pacing states.  Constructor to source string: insufficientData
is BASELINE NEEDED / Baseline Needed, adaptivePacingAlert is
ADAPTIVE PACING ALERT, highLoadWarning is HIGH LOAD WARNING, unusualSpike
is UNUSUAL SPIKE, greenLight is GREEN LIGHT. -/
inductive PacingState where
  | insufficientData
  | adaptivePacingAlert
  | highLoadWarning
  | unusualSpike
  | greenLight
  deriving DecidableEq, Repr

/-- The pacing result dict minus the message string (presentation text).
The numeric fields are Options because the app.py / server.py variant omits
them from its insufficient-data dict. -/
structure PacingResult where
  pacing_state : PacingState
  latest_load : Option ℝ
  load_threshold : Option ℝ

/-- The baseline slice of generate_pacing_recommendation (line 138):
df.iloc[-8:-1] when at least 8 rows exist, else df.iloc[:-1]. -/
def baselineWindow (df : List NDay) : List NDay :=
  if 8 ≤ df.length then (df.drop (df.length - 8)).dropLast else df.dropLast

/-- df.iloc[-1], the latest row (line 137); only evaluated on nonempty
frames, the default value is never read. -/
def latestDay (df : List NDay) : NDay := df.getLastD ⟨0, 0⟩

/-- threshold_load (lines 141-147): baseline mean plus sample standard
deviation (pandas std, ddof = 1) of the TNL column. -/
noncomputable def threshold_load (df : List NDay) : ℝ :=
  (qmean ((baselineWindow df).map NDay.TNL) : ℝ)
    + Real.sqrt (sampleVar ((baselineWindow df).map NDay.TNL))

/-- threshold_tics (lines 143-148): same statistics over the tics
column. -/
noncomputable def threshold_tics (df : List NDay) : ℝ :=
  (qmean ((baselineWindow df).map NDay.tics) : ℝ)
    + Real.sqrt (sampleVar ((baselineWindow df).map NDay.tics))

/-- The decision matrix of lines 150-186, on the strict spike comparisons
of lines 151-152.  app.py lines 327-360 and server.py lines 125-160 are
the same matrix. -/
noncomputable def pacingDecision (df : List NDay) : PacingState :=
  if threshold_load df < ((latestDay df).TNL : ℝ)
      ∧ threshold_tics df < ((latestDay df).tics : ℝ) then .adaptivePacingAlert
  else if threshold_load df < ((latestDay df).TNL : ℝ) then .highLoadWarning
  else if threshold_tics df < ((latestDay df).tics : ℝ) then .unusualSpike
  else .greenLight

/-- generate_pacing_recommendation of analysis_logic.py (lines 125-193):
with fewer than 7 rows return BASELINE NEEDED with both numeric fields 0.0
(lines 130-135); otherwise classify the latest row by the decision matrix
and return it with the latest load and the load threshold
(lines 188-193). -/
noncomputable def generate_pacing_recommendation (df : List NDay) : PacingResult :=
  if df.length < 7 then
    { pacing_state := .insufficientData, latest_load := some 0, load_threshold := some 0 }
  else
    { pacing_state := pacingDecision df
      latest_load := some ((latestDay df).TNL : ℝ)
      load_threshold := some (threshold_load df) }

end AnalysisLogic

namespace AppService

/- Embedding of src/python/app.py; server.py duplicates the functions
embedded here except where noted. -/

/-- Sum of the positive impacts of a day's custom factors in the app.py
calculate_daily_metrics variant (lines 37-48): this variant uses the
effect alone as the impact, ignoring level. -/
def posImpactEffect (cs : List CustomFactor) : ℚ :=
  ((cs.map (fun f => f.effect)).filter (fun i => 0 < i)).sum

/-- Negative counterpart of posImpactEffect (kept negative). -/
def negImpactEffect (cs : List CustomFactor) : ℚ :=
  ((cs.map (fun f => f.effect)).filter (fun i => i < 0)).sum

/-- One row of the app.py metrics frame (lines 61-70); it has no sleep
penalty column. -/
structure MDay where
  date : Option String
  tics : ℚ
  TNL : ℚ
  stress_contrib : ℚ
  study_contrib : ℚ
  pos_custom_contrib : ℚ
  raw_neg_impact : ℚ
  deriving DecidableEq, Repr

/-- calculate_daily_metrics of app.py (lines 21-72, same in server.py up to
impact = level * effect there): no vulnerability check, no sleep penalty,
TNL = stress + normalized_study + positive_custom (lines 55-59).  As for
the analysis_logic variant the final sort_index is presentation only and
not modelled. -/
def appMetricRow (r : RawRec) : MDay :=
  { date := r.date
    tics := r.tic_count.getD 0
    TNL := r.stress.getD 0 + AnalysisLogic.normalized_study (r.study_minutes.getD 0)
            + posImpactEffect r.custom
    stress_contrib := r.stress.getD 0
    study_contrib := AnalysisLogic.normalized_study (r.study_minutes.getD 0)
    pos_custom_contrib := posImpactEffect r.custom
    raw_neg_impact := negImpactEffect r.custom }

/-- calculate_daily_metrics of app.py as a whole: one appMetricRow per
record. -/
def calculate_daily_metrics (data : List RawRec) : List MDay :=
  data.map appMetricRow

/-- generate_pacing_recommendation of app.py lines 304-366 (identical in
server.py lines 95-167): same statistics and decision matrix as the
analysis_logic variant, but the insufficient-data dict (lines 309-313)
carries no latest_load and no load_threshold key. -/
noncomputable def generate_pacing_recommendation (df : List AnalysisLogic.NDay) :
    AnalysisLogic.PacingResult :=
  if df.length < 7 then
    { pacing_state := .insufficientData, latest_load := none, load_threshold := none }
  else
    { pacing_state := AnalysisLogic.pacingDecision df
      latest_load := some ((AnalysisLogic.latestDay df).TNL : ℝ)
      load_threshold := some (AnalysisLogic.threshold_load df) }

/-- Rounding of a real to the nearest integer with ties to even, the
behaviour of Python round() on the float correlation value. -/
noncomputable def roundHalfEvenR (x : ℝ) : ℤ :=
  if x - ⌊x⌋ < 1/2 then ⌊x⌋
  else if 1/2 < x - ⌊x⌋ then ⌊x⌋ + 1
  else if 2 ∣ ⌊x⌋ then ⌊x⌋ else ⌊x⌋ + 1

/-- Python round(x, 2) on a real. -/
noncomputable def roundR2 (x : ℝ) : ℝ := (roundHalfEvenR (x * 100) : ℝ) / 100

/-- The covariance sum of calculate_pearson_correlation (line 508): the
source iterates i over range(len(x_values)); on the equal-length lists all
theorems below assume, that is the zip of the two lists. -/
def covariance (x y : List ℚ) : ℚ :=
  ((x.zip y).map (fun p => (p.1 - qmean x) * (p.2 - qmean y))).sum

/-- calculate_pearson_correlation (app.py lines 500-516, identical in
server.py lines 311-327): 0.0 below 2 points, 0.0 when either root of the
squared-deviation sums is 0, otherwise the covariance over the product of
the two roots, rounded to 2 decimals. -/
noncomputable def calculate_pearson_correlation (x y : List ℚ) : ℝ :=
  if x.length < 2 ∨ y.length < 2 then 0
  else
    let stdX := Real.sqrt (sqDev x)
    let stdY := Real.sqrt (sqDev y)
    if stdX = 0 ∨ stdY = 0 then 0
    else roundR2 ((covariance x y : ℝ) / (stdX * stdY))

/- calculate_sleep_analysis (app.py lines 423-497).  The correlation
coefficient, the worst-third mean and the insight message feed only the
human-facing text and are left out of the embedded result record; no claim
concerns them. -/

/-- The slice data[-14:] of line 431. -/
def recentOf (data : List RawRec) : List RawRec :=
  if 14 ≤ data.length then data.drop (data.length - 14) else data

/-- The paired (sleep, tic) values of the recent days with a logged
(strictly positive) sleep value (lines 436-441); a missing field reads as 0
(entry.get with default 0). -/
def loggedPairs (data : List RawRec) : List (ℚ × ℚ) :=
  (recentOf data).filterMap (fun e =>
    let s := e.sleep_hours.getD 0
    if 0 < s then some (s, e.tic_count.getD 0) else none)

/-- round(mean(sleep_hours), 1) of line 450. -/
def avgSleep (data : List RawRec) : ℚ :=
  roundQ 1 (qmean ((loggedPairs data).map Prod.fst))

/-- The (tic, sleep) pairs sorted ascending by tic count (line 455).  The
source uses Python sorted, a stable sort; a stable sort by a total preorder
key is unique, so the insertion sort used here produces the same list. -/
def sortedPairs (data : List RawRec) : List (ℚ × ℚ) :=
  ((loggedPairs data).map (fun p => (p.2, p.1))).insertionSort
    (fun a b => a.1 ≤ b.1)

/-- The sleep values of the lowest-tic third, paired[:len(paired)//3]
(line 457). -/
def bestThirdSleep (data : List RawRec) : List ℚ :=
  ((sortedPairs data).take ((loggedPairs data).length / 3)).map Prod.snd

/-- optimal_sleep (line 460): round(mean(best_days_sleep), 1) when the
lowest-tic third is nonempty, else avg_sleep. -/
def optimalSleep (data : List RawRec) : ℚ :=
  if bestThirdSleep data ≠ [] then roundQ 1 (qmean (bestThirdSleep data))
  else avgSleep data

/-- The good-sleep bucket (lines 465-466): tics of the logged days whose
sleep is within tolerance 0.75 of optimal_sleep. -/
def goodBucket (data : List RawRec) : List ℚ :=
  (loggedPairs data).filterMap (fun p =>
    if |p.1 - optimalSleep data| ≤ 3/4 then some p.2 else none)

/-- The bad-sleep bucket (lines 467-468): tics of the logged days whose
sleep is more than twice the tolerance, 1.5, away from optimal_sleep. -/
def badBucket (data : List RawRec) : List ℚ :=
  (loggedPairs data).filterMap (fun p =>
    if 3/2 < |p.1 - optimalSleep data| then some p.2 else none)

/-- avg_good_sleep_tics (line 470): the rounded bucket mean, None when the
bucket is empty. -/
def avgGoodTics (data : List RawRec) : Option ℚ :=
  if goodBucket data ≠ [] then some (roundQ 1 (qmean (goodBucket data))) else none

/-- avg_bad_sleep_tics (line 471). -/
def avgBadTics (data : List RawRec) : Option ℚ :=
  if badBucket data ≠ [] then some (roundQ 1 (qmean (badBucket data))) else none

/-- percent_diff (lines 473-478).  The guard is the Python truth test
avg_good and avg_bad and avg_good > 0: both averages must be non-None and
nonzero (0.0 is falsy) and the good average positive. -/
def percentDiff (data : List RawRec) : Option ℤ :=
  match avgGoodTics data, avgBadTics data with
  | some g, some b =>
    if g ≠ 0 ∧ b ≠ 0 ∧ 0 < g then some (roundHalfEvenQ ((b - g) / g * 100))
    else none
  | _, _ => none

/-- The sleep-analysis result dict minus correlation and insight text.  The
two error dicts of lines 424-429 and 443-448 are modelled with success
false and every numeric field None. -/
structure SleepResult where
  success : Bool
  avg_sleep_hours : Option ℚ
  optimal_sleep_hours : Option ℚ
  avg_tics_good_sleep : Option ℚ
  avg_tics_bad_sleep : Option ℚ
  percent_difference : Option ℤ
  days_analyzed : ℕ
  deriving DecidableEq, Repr

/-- calculate_sleep_analysis (lines 423-497): error result below 7 records
or below 5 logged-sleep days, otherwise the bucket statistics around the
personalized optimal sleep. -/
def calculate_sleep_analysis (data : List RawRec) : SleepResult :=
  if data.length < 7 then
    { success := false, avg_sleep_hours := none, optimal_sleep_hours := none
      avg_tics_good_sleep := none, avg_tics_bad_sleep := none
      percent_difference := none, days_analyzed := 0 }
  else if (loggedPairs data).length < 5 then
    { success := false, avg_sleep_hours := none, optimal_sleep_hours := none
      avg_tics_good_sleep := none, avg_tics_bad_sleep := none
      percent_difference := none, days_analyzed := 0 }
  else
    { success := true
      avg_sleep_hours := some (avgSleep data)
      optimal_sleep_hours := some (optimalSleep data)
      avg_tics_good_sleep := avgGoodTics data
      avg_tics_bad_sleep := avgBadTics data
      percent_difference := percentDiff data
      days_analyzed := (loggedPairs data).length }

/- analyze_protective_factors (app.py lines 78-199). -/

/-- symptoms.tic_count of a record as read by the analyzer (line 102). -/
def ticOf (e : RawRec) : ℚ := e.tic_count.getD 0

/-- The date a record is keyed by in the analyzer (line 101):
entry.get(date, Unknown). -/
def dateStr (e : RawRec) : String := e.date.getD "Unknown"

/-- The protective occurrences of a day: custom factors whose impact
level * effect is negative (lines 115-121). -/
def negOccs (e : RawRec) : List CustomFactor :=
  e.custom.filter (fun f => f.level * f.effect < 0)

/-- factor_data[nm].tic_counts: the day's tic count recorded once per
protective occurrence of factor nm (line 130). -/
def ticsWith (data : List RawRec) (nm : String) : List ℚ :=
  data.flatMap (fun e => (((negOccs e).filter (fun f => f.name = nm)).map (fun _ => ticOf e)))

/-- factor_data[nm].days_used: the day's date recorded once per protective
occurrence of factor nm (line 129). -/
def datesUsed (data : List RawRec) (nm : String) : List String :=
  data.flatMap (fun e => (((negOccs e).filter (fun f => f.name = nm)).map (fun _ => dateStr e)))

/-- factor_data[nm].total_impact: the absolute impacts summed over the
protective occurrences of factor nm (line 131). -/
def totalImpact (data : List RawRec) (nm : String) : ℚ :=
  (data.flatMap (fun e => (((negOccs e).filter (fun f => f.name = nm)).map
    (fun f => |f.level * f.effect|)))).sum

/-- factor_data[nm].usage_count (line 132), equal to the length of the
tic_counts list since both grow once per occurrence. -/
def usageCount (data : List RawRec) (nm : String) : ℕ := (ticsWith data nm).length

/-- days_without_factor_tics (lines 156-159): tics of the days whose date
is not among the factor's recorded usage dates. -/
def ticsWithout (data : List RawRec) (nm : String) : List ℚ :=
  (data.filter (fun e => dateStr e ∉ datesUsed data nm)).map ticOf

/-- avg_tics_with (line 161). -/
def avgTicsWith (data : List RawRec) (nm : String) : ℚ :=
  if ticsWith data nm ≠ [] then qmean (ticsWith data nm) else 0

/-- avg_tics_without (line 162): mean of the complement days, falling back
to avg_tics_with when every day used the factor. -/
def avgTicsWithout (data : List RawRec) (nm : String) : ℚ :=
  if ticsWithout data nm ≠ [] then qmean (ticsWithout data nm)
  else avgTicsWith data nm

/-- tic_reduction_pct (lines 164-168): relative drop of the with-average
under the without-average, 0 when the without-average is not positive. -/
def ticReductionPct (data : List RawRec) (nm : String) : ℚ :=
  if 0 < avgTicsWithout data nm then
    (avgTicsWithout data nm - avgTicsWith data nm) / avgTicsWithout data nm * 100
  else 0

/-- One entry of factor_analysis (lines 170-177), with the source's
roundings applied. -/
structure PFactor where
  name : String
  avg_impact : ℚ
  times_used : ℕ
  avg_tics_with : ℚ
  avg_tics_without : ℚ
  tic_reduction_pct : ℚ
  deriving DecidableEq, Repr

/-- The factor_analysis entry of factor nm (lines 150-177). -/
def entryFor (data : List RawRec) (nm : String) : PFactor :=
  { name := nm
    avg_impact := roundQ 2 (totalImpact data nm / (usageCount data nm : ℚ))
    times_used := usageCount data nm
    avg_tics_with := roundQ 1 (avgTicsWith data nm)
    avg_tics_without := roundQ 1 (avgTicsWithout data nm)
    tic_reduction_pct := roundQ 1 (ticReductionPct data nm) }

/-- The distinct protective factor names in first-occurrence order, the
iteration order of the factor_data dict (dict keys in Python preserve
insertion order). -/
def factorNames (data : List RawRec) : List String :=
  (data.flatMap (fun e => (negOccs e).map (fun f => f.name))).foldl
    (fun acc a => if a ∈ acc then acc else acc ++ [a]) []

/-- One entry of daily_info (lines 137-145).  The nested list of the day's
protective factor dicts feeds only the insight text and is reduced here to
its summed protection (the day's absolute negative impact). -/
structure DayInfo where
  date : String
  tnl : ℚ
  tics : ℚ
  stress : ℚ
  study_minutes : ℚ
  total_protection : ℚ
  deriving DecidableEq, Repr

/-- daily_info entry of one record (lines 100-145): the analyzer recomputes
TNL inline as stress + normalized_study + positive level * effect impacts,
without sleep penalty (line 136). -/
def dayInfoOf (e : RawRec) : DayInfo :=
  { date := dateStr e
    tnl := e.stress.getD 0 + AnalysisLogic.normalized_study (e.study_minutes.getD 0)
            + AnalysisLogic.posImpact e.custom
    tics := ticOf e
    stress := e.stress.getD 0
    study_minutes := e.study_minutes.getD 0
    total_protection := |AnalysisLogic.negImpact e.custom| }

/-- daily_info (lines 97-145): one entry per input record, in input order,
whether or not the record has a date. -/
def dailyInfo (data : List RawRec) : List DayInfo := data.map dayInfoOf

/-- The result dict of analyze_protective_factors (lines 193-199). -/
structure PFResult where
  best_protective_factor : Option PFactor
  all_protective_factors : List PFactor
  lowest_tnl_day : Option DayInfo
  top_3_best_days : List DayInfo
  total_days_analyzed : ℕ
  deriving DecidableEq, Repr

/-- analyze_protective_factors (lines 78-199): build one entry per distinct
protective factor name, rank the entries descending by tic_reduction_pct
with Python's stable sort (line 180, modelled by the stable insertion
sort), and pick the lowest-TNL days by a stable ascending sort (Python min
returns the first minimum, which heads the stable ascending sort). -/
def analyze_protective_factors (data : List RawRec) : PFResult :=
  let entries := (factorNames data).map (entryFor data)
  let ranked := entries.insertionSort
    (fun a b => b.tic_reduction_pct ≤ a.tic_reduction_pct)
  let sortedDaily := (dailyInfo data).insertionSort (fun a b => a.tnl ≤ b.tnl)
  { best_protective_factor := ranked.head?
    all_protective_factors := ranked.take 5
    lowest_tnl_day := sortedDaily.head?
    top_3_best_days := sortedDaily.take 3
    total_days_analyzed := (dailyInfo data).length }

end AppService

/- Helper lemmas shared by the claim theorems. -/

theorem normalized_study_nonneg (m : ℚ) (hm : 0 ≤ m) :
    0 ≤ AnalysisLogic.normalized_study m := by
  unfold AnalysisLogic.normalized_study
  have h0 : (0:ℚ) ≤ min m 900 := le_min hm (by norm_num)
  exact mul_nonneg (div_nonneg h0 (by norm_num)) (by norm_num)

theorem roundQ_zero (d : ℕ) : roundQ d 0 = 0 := by
  unfold roundQ roundHalfEvenQ
  norm_num

theorem normalized_study_le_ten (m : ℚ) : AnalysisLogic.normalized_study m ≤ 10 := by
  unfold AnalysisLogic.normalized_study
  have h1 : min m 900 ≤ 900 := min_le_right _ _
  calc min m 900 / 900 * 10 ≤ 900 / 900 * 10 := by gcongr
  _ = 10 := by norm_num

theorem posImpact_nonneg (cs : List CustomFactor) : 0 ≤ AnalysisLogic.posImpact cs := by
  unfold AnalysisLogic.posImpact
  apply List.sum_nonneg
  intro a ha
  have := List.of_mem_filter ha
  simp only [decide_eq_true_eq] at this
  exact this.le

theorem posImpactEffect_nonneg (cs : List CustomFactor) :
    0 ≤ AppService.posImpactEffect cs := by
  unfold AppService.posImpactEffect
  apply List.sum_nonneg
  intro a ha
  have := List.of_mem_filter ha
  simp only [decide_eq_true_eq] at this
  exact this.le

/- Concrete sample records used by failing inputs and witnesses. -/

/-- A low-sleep high-tic day. -/
def lowSleepDay : RawRec :=
  { date := some "2024-03-01", study_minutes := some 120, stress := some 3
    tic_count := some 6, sleep_hours := some 5, custom := [] }

/-- A healthy day. -/
def healthyDay : RawRec :=
  { date := some "2024-03-04", study_minutes := some 60, stress := some 1
    tic_count := some 1, sleep_hours := some 8, custom := [] }

/-- Another low-sleep high-tic day, for the C1 failing input. -/
def lowSleepDayB : RawRec :=
  { date := some "2024-04-01", study_minutes := some 0, stress := some 4
    tic_count := some 7, sleep_hours := some 5, custom := [] }

/-- Another healthy day, for the C1 failing input. -/
def healthyDayB : RawRec :=
  { date := some "2024-04-04", study_minutes := some 90, stress := some 2
    tic_count := some 2, sleep_hours := some 9, custom := [] }

/-- Claim C3 (code bug).  On a batch whose baseline (all but the last day)
has at least 3 low-sleep days the claim prescribes a VULNERABLE verdict
(here every low-sleep baseline day has 6 tics, ratio 1.0 at least 0.70),
but determine_sleep_vulnerability instead fails with KeyError: the frame
has no column named tics.  With fewer than 3 low-sleep baseline days the
guard fires first and the function does return NOT-VULNERABLE. -/
theorem claim_C3_keyerror :
    AnalysisLogic.determine_sleep_vulnerability
      (([lowSleepDay, lowSleepDay, lowSleepDay, healthyDay]).map AnalysisLogic.coerceRow)
      = .error "KeyError: tics" ∧
    AnalysisLogic.determine_sleep_vulnerability
      (([lowSleepDay, lowSleepDay, healthyDay]).map AnalysisLogic.coerceRow)
      = .ok false := by
  constructor <;> rfl

/-- Claim C1 (code bug).  On the batch below the claim prescribes a
VULNERABLE verdict and hence a sleep penalty of max(0, 8 - 5) * 1.5 on
every low-sleep day, but calculate_daily_metrics never produces any
metrics for such a batch: the vulnerability check it consults fails with
the KeyError of claim C3, so the penalty branch is unreachable. -/
theorem claim_C1_keyerror :
    AnalysisLogic.calculate_daily_metrics
      [lowSleepDayB, lowSleepDayB, lowSleepDayB, healthyDayB]
      = .error "KeyError: tics" := by
  rfl

/-- Claim C4.  normalized_study is min(study, 900) / 900 * 10; it is within
0 and 10 for non-negative study minutes, monotone in study minutes,
saturates at 10 from 900 minutes on, and maps 450 to 5 and 1800 to 10. -/
theorem claim_C4_normalized_study :
    (∀ m : ℚ, 0 ≤ m →
      AnalysisLogic.normalized_study m = min m 900 / 900 * 10 ∧
      0 ≤ AnalysisLogic.normalized_study m ∧
      AnalysisLogic.normalized_study m ≤ 10 ∧
      (900 ≤ m → AnalysisLogic.normalized_study m = 10)) ∧
    (∀ m n : ℚ, m ≤ n →
      AnalysisLogic.normalized_study m ≤ AnalysisLogic.normalized_study n) ∧
    AnalysisLogic.normalized_study 450 = 5 ∧
    AnalysisLogic.normalized_study 1800 = 10 := by
  refine ⟨fun m hm => ⟨rfl, normalized_study_nonneg m hm, normalized_study_le_ten m, ?_⟩,
    fun m n hmn => ?_, by norm_num [AnalysisLogic.normalized_study],
    by norm_num [AnalysisLogic.normalized_study]⟩
  · intro h900
    unfold AnalysisLogic.normalized_study
    rw [min_eq_right h900]
    norm_num
  · unfold AnalysisLogic.normalized_study
    have h1 : min m 900 ≤ min n 900 := min_le_min hmn le_rfl
    gcongr

/-- Claim C4 witness at study minutes 450, 1000 and the pair 100, 200. -/
theorem claim_C4_witness :
    0 ≤ AnalysisLogic.normalized_study 450 ∧
    AnalysisLogic.normalized_study 450 ≤ 10 ∧
    AnalysisLogic.normalized_study 1000 = 10 ∧
    AnalysisLogic.normalized_study 100 ≤ AnalysisLogic.normalized_study 200 :=
  ⟨(claim_C4_normalized_study.1 450 (by norm_num)).2.1,
   (claim_C4_normalized_study.1 450 (by norm_num)).2.2.1,
   (claim_C4_normalized_study.1 1000 (by norm_num)).2.2.2 (by norm_num),
   claim_C4_normalized_study.2.1 100 200 (by norm_num)⟩

/-- Claim C5.  On a batch with non-negative stress and study inputs, every
produced day of either metrics variant has TNL at least 0: stress and
normalized study are non-negative, the positive custom impact only sums
positive impacts, and the sleep penalty is clamped at 0. -/
theorem claim_C5_tnl_nonneg (data : List RawRec)
    (h : ∀ r ∈ data, 0 ≤ r.stress.getD 0 ∧ 0 ≤ r.study_minutes.getD 0) :
    (∀ days, AnalysisLogic.calculate_daily_metrics data = .ok days →
      ∀ d ∈ days, 0 ≤ d.TNL) ∧
    (∀ d ∈ AppService.calculate_daily_metrics data, 0 ≤ d.TNL) := by
  constructor
  · intro days hok d hd
    unfold AnalysisLogic.calculate_daily_metrics at hok
    split at hok
    · exact absurd hok (by simp)
    · split at hok
      · exact absurd hok (by simp)
      · rename_i vuln hveq
        split at hok
        · exact absurd hok (by simp)
        · rw [Except.ok.injEq] at hok
          subst hok
          rw [List.map_map] at hd
          obtain ⟨r, hr, rfl⟩ := List.mem_map.mp hd
          have hs := (h r hr).1
          have hst := (h r hr).2
          have hns := normalized_study_nonneg _ hst
          have hpos := posImpact_nonneg r.custom
          have hpen : (0:ℚ) ≤ AnalysisLogic.sleepPenalty vuln (AnalysisLogic.coerceRow r) := by
            unfold AnalysisLogic.sleepPenalty
            split
            · exact mul_nonneg (le_max_left _ _) (by norm_num)
            · exact le_refl 0
          simp only [Function.comp_apply, AnalysisLogic.metricRow, AnalysisLogic.coerceRow]
          simp only [AnalysisLogic.coerceRow] at hpen
          exact add_nonneg (add_nonneg (add_nonneg hs hns) hpos) hpen
  · intro d hd
    unfold AppService.calculate_daily_metrics at hd
    obtain ⟨r, hr, rfl⟩ := List.mem_map.mp hd
    have hs := (h r hr).1
    have hst := (h r hr).2
    have hns := normalized_study_nonneg _ hst
    have hpos := posImpactEffect_nonneg r.custom
    simp only [AppService.appMetricRow]
    exact add_nonneg (add_nonneg hs hns) hpos

/-- Claim C5 witness: both metrics variants give the healthy one-day batch
a non-negative TNL. -/
theorem claim_C5_witness :
    0 ≤ (AnalysisLogic.metricRow false (AnalysisLogic.coerceRow healthyDay)).TNL ∧
    0 ≤ (AppService.appMetricRow healthyDay).TNL := by
  have h := claim_C5_tnl_nonneg [healthyDay]
    (by intro r hr
        simp only [List.mem_singleton] at hr
        subst hr
        constructor <;> norm_num [healthyDay])
  have hcalc : AnalysisLogic.calculate_daily_metrics [healthyDay]
      = .ok [AnalysisLogic.metricRow false (AnalysisLogic.coerceRow healthyDay)] := rfl
  constructor
  · exact h.1 _ hcalc _ (List.mem_singleton.mpr rfl)
  · exact h.2 _ (List.mem_singleton.mpr rfl)

/-- Claim C10.  When a protective factor was used (with negative impact) on
every analyzed day, the complement day list is empty, so avg_tics_without
falls back to avg_tics_with and the factor's tic reduction percentage is 0
no matter how large its impact is; the same holds for the rounded fields of
its factor_analysis entry. -/
theorem claim_C10_always_used (data : List RawRec) (nm : String)
    (h : ∀ e ∈ data, ∃ f ∈ e.custom, f.name = nm ∧ f.level * f.effect < 0) :
    AppService.avgTicsWithout data nm = AppService.avgTicsWith data nm ∧
    AppService.ticReductionPct data nm = 0 ∧
    (AppService.entryFor data nm).avg_tics_without
      = (AppService.entryFor data nm).avg_tics_with ∧
    (AppService.entryFor data nm).tic_reduction_pct = 0 := by
  have hused : ∀ e ∈ data, AppService.dateStr e ∈ AppService.datesUsed data nm := by
    intro e he
    obtain ⟨f, hf, hname, hneg⟩ := h e he
    unfold AppService.datesUsed
    refine List.mem_flatMap.mpr ⟨e, he, ?_⟩
    refine List.mem_map.mpr ⟨f, ?_, rfl⟩
    refine List.mem_filter.mpr ⟨?_, by simp [hname]⟩
    exact List.mem_filter.mpr ⟨hf, by simp [hneg]⟩
  have hempty : AppService.ticsWithout data nm = [] := by
    unfold AppService.ticsWithout
    rw [List.map_eq_nil_iff, List.filter_eq_nil_iff]
    intro e he
    simp only [decide_eq_true_eq]
    exact fun hc => hc (hused e he)
  have h1 : AppService.avgTicsWithout data nm = AppService.avgTicsWith data nm := by
    unfold AppService.avgTicsWithout
    rw [hempty]
    simp
  have h2 : AppService.ticReductionPct data nm = 0 := by
    unfold AppService.ticReductionPct
    rw [h1]
    split
    · rw [sub_self, zero_div, zero_mul]
    · rfl
  refine ⟨h1, h2, ?_, ?_⟩
  · unfold AppService.entryFor
    simp only
    rw [h1]
  · unfold AppService.entryFor
    simp only
    rw [h2]
    exact roundQ_zero 1

/-- Claim C10 witness: a one-day batch whose only day used the protective
factor music has reduction percentage 0 despite the factor's impact. -/
theorem claim_C10_witness :
    AppService.ticReductionPct
      [{ date := some "2024-02-01", study_minutes := some 0, stress := some 3
         tic_count := some 4, sleep_hours := some 7
         custom := [{ name := "music", level := 1, effect := -2 }] }] "music" = 0 ∧
    (AppService.entryFor
      [{ date := some "2024-02-01", study_minutes := some 0, stress := some 3
         tic_count := some 4, sleep_hours := some 7
         custom := [{ name := "music", level := 1, effect := -2 }] }] "music").tic_reduction_pct
      = 0 := by
  have h := claim_C10_always_used
    [{ date := some "2024-02-01", study_minutes := some 0, stress := some 3
       tic_count := some 4, sleep_hours := some 7
       custom := [{ name := "music", level := 1, effect := -2 }] }] "music"
    (by intro e he
        simp only [List.mem_singleton] at he
        subst he
        exact ⟨{ name := "music", level := 1, effect := -2 },
          List.mem_singleton.mpr rfl, rfl, by norm_num⟩)
  exact ⟨h.2.1, h.2.2.2⟩

/-- A record with no date key. -/
def noDateRec : RawRec :=
  { date := none, study_minutes := some 30, stress := some 2
    tic_count := some 3, sleep_hours := some 7, custom := [] }

/-- Claim C9 counterexample.  A record lacking the date key is not excluded
from the batch: the protective factor analyzer processes it (under the
placeholder date Unknown), so the downstream results differ from those of
the batch without the record, contradicting the claim that every
downstream result is computed as if the record had never been submitted. -/
theorem claim_C9_counterexample :
    (AppService.analyze_protective_factors [noDateRec]).total_days_analyzed = 1 ∧
    (AppService.analyze_protective_factors ([] : List RawRec)).total_days_analyzed = 0 ∧
    (AppService.analyze_protective_factors [noDateRec]).lowest_tnl_day ≠ none := by
  refine ⟨rfl, rfl, by decide⟩

/-- Claim C9 as amended.  A record lacking the date key is not excluded:
the protective factor analyzer processes every record, a date-less one
under the placeholder date Unknown, and is never fatal;
calculate_daily_metrics keeps one metrics row per input record, the dates
preserved, whenever it returns metrics at all - in particular when some
other record of the batch has a date - but a nonempty batch in which no
record has a date is fatal there: the frame has no date column and
df[date] raises KeyError. -/
theorem claim_C9_amended (data : List RawRec) :
    (AppService.analyze_protective_factors data).total_days_analyzed = data.length ∧
    (AppService.dailyInfo data).map AppService.DayInfo.date
      = data.map (fun e => e.date.getD "Unknown") ∧
    (∀ days, AnalysisLogic.calculate_daily_metrics data = .ok days →
      days.length = data.length ∧
      days.map AnalysisLogic.MDay.date = data.map RawRec.date) ∧
    (data ≠ [] → (∀ r ∈ data, r.date = none) →
      ∀ days, AnalysisLogic.calculate_daily_metrics data ≠ .ok days) := by
  refine ⟨?_, ?_, ?_, ?_⟩
  · unfold AppService.analyze_protective_factors
    simp [AppService.dailyInfo]
  · unfold AppService.dailyInfo
    rw [List.map_map]
    rfl
  · intro days hok
    unfold AnalysisLogic.calculate_daily_metrics at hok
    split at hok
    · exact absurd hok (by simp)
    · split at hok
      · exact absurd hok (by simp)
      · split at hok
        · exact absurd hok (by simp)
        · rw [Except.ok.injEq] at hok
          subst hok
          constructor
          · simp
          · rw [List.map_map, List.map_map]
            rfl
  · intro hne hall days
    unfold AnalysisLogic.calculate_daily_metrics
    rw [if_neg hne]
    split
    · simp
    · rw [if_pos (List.all_eq_true.mpr (fun r hr => by simp [hall r hr]))]
      simp

/-- Claim C9 witness: the date-less record is counted by the analyzer; on
the two-record batch where the other record has a date,
calculate_daily_metrics returns a metrics row for both records with the
dates preserved (none for the date-less one); and the one-record batch
with no date at all yields no metrics. -/
theorem claim_C9_witness :
    (AppService.analyze_protective_factors [noDateRec]).total_days_analyzed
      = [noDateRec].length ∧
    ([AnalysisLogic.metricRow false (AnalysisLogic.coerceRow healthyDay),
      AnalysisLogic.metricRow false (AnalysisLogic.coerceRow noDateRec)]).map
        AnalysisLogic.MDay.date = [healthyDay, noDateRec].map RawRec.date ∧
    AnalysisLogic.calculate_daily_metrics [noDateRec]
      ≠ .ok [AnalysisLogic.metricRow false (AnalysisLogic.coerceRow noDateRec)] := by
  refine ⟨(claim_C9_amended [noDateRec]).1, ?_, ?_⟩
  · exact ((claim_C9_amended [healthyDay, noDateRec]).2.2.1 _ rfl).2
  · exact (claim_C9_amended [noDateRec]).2.2.2 (by simp)
      (by intro r hr
          simp only [List.mem_singleton] at hr
          subst hr
          rfl) _

theorem dropLast_drop_comm {α : Type} (l : List α) (n : ℕ) :
    (l.drop n).dropLast = l.dropLast.drop n := by
  rw [List.dropLast_eq_take, List.dropLast_eq_take, List.drop_take, List.length_drop]
  congr 1
  omega

/-- Claim C2.  With fewer than 7 rows the pacing detector returns the
insufficient-data state; otherwise its baseline window is the trailing
up-to-7-row slice preceding the latest row (all-but-last on exactly 7
rows, exactly 7 rows long from 8 on), and the state follows the
(load_spiking, tics_spiking) decision table on the strict comparisons of
the latest row against mean + sample standard deviation of the window. -/
theorem claim_C2_pacing (df : List AnalysisLogic.NDay) :
    (df.length < 7 →
      (AnalysisLogic.generate_pacing_recommendation df).pacing_state = .insufficientData) ∧
    (7 ≤ df.length →
      (AnalysisLogic.baselineWindow df = df.dropLast.drop (df.dropLast.length - 7) ∧
        (df.length = 7 → AnalysisLogic.baselineWindow df = df.dropLast) ∧
        (8 ≤ df.length → (AnalysisLogic.baselineWindow df).length = 7)) ∧
      (AnalysisLogic.threshold_load df < ((AnalysisLogic.latestDay df).TNL : ℝ) ∧
          AnalysisLogic.threshold_tics df < ((AnalysisLogic.latestDay df).tics : ℝ) →
        (AnalysisLogic.generate_pacing_recommendation df).pacing_state = .adaptivePacingAlert) ∧
      (AnalysisLogic.threshold_load df < ((AnalysisLogic.latestDay df).TNL : ℝ) ∧
          ¬ AnalysisLogic.threshold_tics df < ((AnalysisLogic.latestDay df).tics : ℝ) →
        (AnalysisLogic.generate_pacing_recommendation df).pacing_state = .highLoadWarning) ∧
      (¬ AnalysisLogic.threshold_load df < ((AnalysisLogic.latestDay df).TNL : ℝ) ∧
          AnalysisLogic.threshold_tics df < ((AnalysisLogic.latestDay df).tics : ℝ) →
        (AnalysisLogic.generate_pacing_recommendation df).pacing_state = .unusualSpike) ∧
      (¬ AnalysisLogic.threshold_load df < ((AnalysisLogic.latestDay df).TNL : ℝ) ∧
          ¬ AnalysisLogic.threshold_tics df < ((AnalysisLogic.latestDay df).tics : ℝ) →
        (AnalysisLogic.generate_pacing_recommendation df).pacing_state = .greenLight)) := by
  constructor
  · intro hlt
    unfold AnalysisLogic.generate_pacing_recommendation
    rw [if_pos hlt]
  · intro h7
    have hnot : ¬ df.length < 7 := by omega
    refine ⟨⟨?_, ?_, ?_⟩, ?_, ?_, ?_, ?_⟩
    · unfold AnalysisLogic.baselineWindow
      split
    <;> rename_i h8
      · rw [dropLast_drop_comm]
        congr 1
        rw [List.length_dropLast]
        omega
      · rw [List.length_dropLast, show df.length - 1 - 7 = 0 by omega, List.drop_zero]
    · intro hexact
      unfold AnalysisLogic.baselineWindow
      rw [if_neg (by omega)]
    · intro h8
      unfold AnalysisLogic.baselineWindow
      rw [if_pos h8, List.length_dropLast, List.length_drop]
      omega
    · intro hspikes
      unfold AnalysisLogic.generate_pacing_recommendation AnalysisLogic.pacingDecision
      rw [if_neg hnot]
      simp only
      rw [if_pos hspikes]
    · intro hspikes
      unfold AnalysisLogic.generate_pacing_recommendation AnalysisLogic.pacingDecision
      rw [if_neg hnot]
      simp only
      rw [if_neg (by tauto), if_pos hspikes.1]
    · intro hspikes
      unfold AnalysisLogic.generate_pacing_recommendation AnalysisLogic.pacingDecision
      rw [if_neg hnot]
      simp only
      rw [if_neg (by tauto), if_neg hspikes.1, if_pos hspikes.2]
    · intro hspikes
      unfold AnalysisLogic.generate_pacing_recommendation AnalysisLogic.pacingDecision
      rw [if_neg hnot]
      simp only
      rw [if_neg (by tauto), if_neg hspikes.1, if_neg hspikes.2]

/-- Claim C2 witness: a 6-row frame is insufficient, and an 8-row frame
whose window has constant TNL 5 and constant tics 2 with latest row
(TNL 9, tics 2) spikes in load only, giving HIGH LOAD WARNING, matching
the worked example of the spec. -/
theorem claim_C2_witness :
    (AnalysisLogic.generate_pacing_recommendation
      (List.replicate 6 ⟨1, 1⟩)).pacing_state = .insufficientData ∧
    (AnalysisLogic.generate_pacing_recommendation
      [⟨5, 2⟩, ⟨5, 2⟩, ⟨5, 2⟩, ⟨5, 2⟩, ⟨5, 2⟩, ⟨5, 2⟩, ⟨5, 2⟩, ⟨9, 2⟩]).pacing_state
      = .highLoadWarning := by
  constructor
  · exact (claim_C2_pacing _).1 (by simp)
  · have hwin : AnalysisLogic.baselineWindow
        [⟨5, 2⟩, ⟨5, 2⟩, ⟨5, 2⟩, ⟨5, 2⟩, ⟨5, 2⟩, ⟨5, 2⟩, ⟨5, 2⟩, ⟨9, 2⟩]
        = [⟨5, 2⟩, ⟨5, 2⟩, ⟨5, 2⟩, ⟨5, 2⟩, ⟨5, 2⟩, ⟨5, 2⟩, ⟨5, 2⟩] := rfl
    have hmL : qmean ((AnalysisLogic.baselineWindow
        [⟨5, 2⟩, ⟨5, 2⟩, ⟨5, 2⟩, ⟨5, 2⟩, ⟨5, 2⟩, ⟨5, 2⟩, ⟨5, 2⟩, ⟨9, 2⟩]).map
          AnalysisLogic.NDay.TNL) = 5 := by
      rw [hwin]
      norm_num [qmean]
    have hvL : sampleVar ((AnalysisLogic.baselineWindow
        [⟨5, 2⟩, ⟨5, 2⟩, ⟨5, 2⟩, ⟨5, 2⟩, ⟨5, 2⟩, ⟨5, 2⟩, ⟨5, 2⟩, ⟨9, 2⟩]).map
          AnalysisLogic.NDay.TNL) = 0 := by
      rw [hwin]
      norm_num [sampleVar, sqDev, qmean]
    have hmT : qmean ((AnalysisLogic.baselineWindow
        [⟨5, 2⟩, ⟨5, 2⟩, ⟨5, 2⟩, ⟨5, 2⟩, ⟨5, 2⟩, ⟨5, 2⟩, ⟨5, 2⟩, ⟨9, 2⟩]).map
          AnalysisLogic.NDay.tics) = 2 := by
      rw [hwin]
      norm_num [qmean]
    have hvT : sampleVar ((AnalysisLogic.baselineWindow
        [⟨5, 2⟩, ⟨5, 2⟩, ⟨5, 2⟩, ⟨5, 2⟩, ⟨5, 2⟩, ⟨5, 2⟩, ⟨5, 2⟩, ⟨9, 2⟩]).map
          AnalysisLogic.NDay.tics) = 0 := by
      rw [hwin]
      norm_num [sampleVar, sqDev, qmean]
    have hls : AnalysisLogic.threshold_load
        [⟨5, 2⟩, ⟨5, 2⟩, ⟨5, 2⟩, ⟨5, 2⟩, ⟨5, 2⟩, ⟨5, 2⟩, ⟨5, 2⟩, ⟨9, 2⟩]
        < ((AnalysisLogic.latestDay
            [⟨5, 2⟩, ⟨5, 2⟩, ⟨5, 2⟩, ⟨5, 2⟩, ⟨5, 2⟩, ⟨5, 2⟩, ⟨5, 2⟩, ⟨9, 2⟩]).TNL : ℝ) := by
      unfold AnalysisLogic.threshold_load
      rw [hmL, hvL]
      show ((5:ℚ):ℝ) + Real.sqrt ((0:ℚ):ℝ) < ((9:ℚ):ℝ)
      push_cast
      rw [Real.sqrt_zero]
      norm_num
    have hts : ¬ AnalysisLogic.threshold_tics
        [⟨5, 2⟩, ⟨5, 2⟩, ⟨5, 2⟩, ⟨5, 2⟩, ⟨5, 2⟩, ⟨5, 2⟩, ⟨5, 2⟩, ⟨9, 2⟩]
        < ((AnalysisLogic.latestDay
            [⟨5, 2⟩, ⟨5, 2⟩, ⟨5, 2⟩, ⟨5, 2⟩, ⟨5, 2⟩, ⟨5, 2⟩, ⟨5, 2⟩, ⟨9, 2⟩]).tics : ℝ) := by
      unfold AnalysisLogic.threshold_tics
      rw [hmT, hvT]
      show ¬ ((2:ℚ):ℝ) + Real.sqrt ((0:ℚ):ℝ) < ((2:ℚ):ℝ)
      push_cast
      rw [Real.sqrt_zero]
      norm_num
    exact (((claim_C2_pacing _).2 (by simp)).2.2.1) ⟨hls, hts⟩

/-- Claim C8 counterexample.  The app.py / server.py pacing variant returns
its insufficient-data dict without the numeric latest_load and
load_threshold fields on a 6-day batch, contradicting the claim that both
numeric fields are present regardless of state. -/
theorem claim_C8_counterexample :
    (AppService.generate_pacing_recommendation
      [⟨1, 1⟩, ⟨1, 1⟩, ⟨1, 1⟩, ⟨1, 1⟩, ⟨1, 1⟩, ⟨1, 1⟩]).latest_load = none ∧
    (AppService.generate_pacing_recommendation
      [⟨1, 1⟩, ⟨1, 1⟩, ⟨1, 1⟩, ⟨1, 1⟩, ⟨1, 1⟩, ⟨1, 1⟩]).load_threshold = none := by
  unfold AppService.generate_pacing_recommendation
  rw [if_pos (by simp)]
  exact ⟨rfl, rfl⟩

/-- Claim C8 as amended.  The analysis_logic variant carries both numeric
fields in all five states (0.0 and 0.0 for the insufficient-data state);
the app.py / server.py variant carries both fields in the four computed
states but omits them from its insufficient-data result. -/
theorem claim_C8_amended :
    (∀ df : List AnalysisLogic.NDay,
      (AnalysisLogic.generate_pacing_recommendation df).latest_load.isSome = true ∧
      (AnalysisLogic.generate_pacing_recommendation df).load_threshold.isSome = true) ∧
    (∀ df : List AnalysisLogic.NDay, 7 ≤ df.length →
      (AppService.generate_pacing_recommendation df).latest_load.isSome = true ∧
      (AppService.generate_pacing_recommendation df).load_threshold.isSome = true) ∧
    (∀ df : List AnalysisLogic.NDay, df.length < 7 →
      (AppService.generate_pacing_recommendation df).latest_load = none ∧
      (AppService.generate_pacing_recommendation df).load_threshold = none) := by
  refine ⟨fun df => ?_, fun df h => ?_, fun df h => ?_⟩
  · unfold AnalysisLogic.generate_pacing_recommendation
    split <;> exact ⟨rfl, rfl⟩
  · unfold AppService.generate_pacing_recommendation
    rw [if_neg (by omega)]
    exact ⟨rfl, rfl⟩
  · unfold AppService.generate_pacing_recommendation
    rw [if_pos h]
    exact ⟨rfl, rfl⟩

/-- Claim C8 witness: concrete 7-day and 3-day batches for each clause. -/
theorem claim_C8_witness :
    (AnalysisLogic.generate_pacing_recommendation
      (List.replicate 3 (⟨0, 0⟩ : AnalysisLogic.NDay))).latest_load.isSome = true ∧
    (AppService.generate_pacing_recommendation
      (List.replicate 7 (⟨0, 0⟩ : AnalysisLogic.NDay))).latest_load.isSome = true ∧
    (AppService.generate_pacing_recommendation
      (List.replicate 3 (⟨0, 0⟩ : AnalysisLogic.NDay))).latest_load = none :=
  ⟨(claim_C8_amended.1 _).1, (claim_C8_amended.2.1 _ (by simp)).1,
    (claim_C8_amended.2.2 _ (by simp)).1⟩

/-- A sleep-analysis record with the given date, sleep hours and tics. -/
def sleepRec (d : String) (s t : ℚ) : RawRec :=
  { date := some d, study_minutes := some 0, stress := some 0
    tic_count := some t, sleep_hours := some s, custom := [] }

/-- Seven days whose bad-sleep bucket has all-zero tics: the two lowest-tic
days sleep 3h (fixing optimal_sleep at 3), the good bucket is those days
plus a 3.5h day with 4 tics, and the bad bucket is the two 8h days, both
with 0 tics. -/
def sleepBatchA : List RawRec :=
  [sleepRec "d1" 3 0, sleepRec "d2" 3 0, sleepRec "d3" 8 0, sleepRec "d4" 8 0,
   sleepRec "d5" (7/2) 4, sleepRec "d6" 4 5, sleepRec "d7" 4 6]

/-- Like sleepBatchA but the two 8h days have 4 tics, so the bad-bucket
average is nonzero and percent_difference is defined. -/
def sleepBatchB : List RawRec :=
  [sleepRec "d1" 3 0, sleepRec "d2" 3 0, sleepRec "d3" 8 4, sleepRec "d4" 8 4,
   sleepRec "d5" (7/2) 4, sleepRec "d6" 4 5, sleepRec "d7" 4 6]

/-- Claim C7 as amended.  For a day set passing both sufficiency checks,
percent_difference is (bad - good) / good * 100 (on the rounded bucket
averages, rounded to the nearest integer) when both buckets are nonempty,
the good average is positive and the bad average is nonzero; it is null
when either bucket is empty, the good average is not positive, or the bad
average is zero - the bad-average-zero case being the one the original
claim omits. -/
theorem claim_C7_amended (data : List RawRec)
    (h7 : 7 ≤ data.length) (h5 : 5 ≤ (AppService.loggedPairs data).length) :
    (AppService.goodBucket data ≠ [] → AppService.badBucket data ≠ [] →
      0 < roundQ 1 (qmean (AppService.goodBucket data)) →
      roundQ 1 (qmean (AppService.badBucket data)) ≠ 0 →
      (AppService.calculate_sleep_analysis data).percent_difference
        = some (roundHalfEvenQ ((roundQ 1 (qmean (AppService.badBucket data))
            - roundQ 1 (qmean (AppService.goodBucket data)))
            / roundQ 1 (qmean (AppService.goodBucket data)) * 100))) ∧
    ((AppService.goodBucket data = [] ∨ AppService.badBucket data = [] ∨
        ¬ 0 < roundQ 1 (qmean (AppService.goodBucket data)) ∨
        roundQ 1 (qmean (AppService.badBucket data)) = 0) →
      (AppService.calculate_sleep_analysis data).percent_difference = none) := by
  have hpd : (AppService.calculate_sleep_analysis data).percent_difference
      = AppService.percentDiff data := by
    unfold AppService.calculate_sleep_analysis
    rw [if_neg (by omega), if_neg (by omega)]
  constructor
  · intro hg hb hpos hbne
    rw [hpd]
    unfold AppService.percentDiff AppService.avgGoodTics AppService.avgBadTics
    rw [if_pos hg, if_pos hb]
    dsimp only
    rw [if_pos ⟨ne_of_gt hpos, hbne, hpos⟩]
  · intro hcase
    rw [hpd]
    unfold AppService.percentDiff AppService.avgGoodTics AppService.avgBadTics
    by_cases hge : AppService.goodBucket data = []
    · rw [if_neg (fun hc => hc hge)]
    · rw [if_pos hge]
      by_cases hbe : AppService.badBucket data = []
      · rw [if_neg (fun hc => hc hbe)]
      · rw [if_pos hbe]
        dsimp only
        rw [if_neg ?_]
        rintro ⟨hg0, hb0, hgpos⟩
        rcases hcase with hc | hc | hc | hc
        · exact hge hc
        · exact hbe hc
        · exact hc hgpos
        · exact hb0 hc

/-- Claim C7 counterexample.  On sleepBatchA both buckets are nonempty and
the good-bucket average is 1.3, so the claim says percent_difference is
defined (it would be -100), yet the code returns null: the Python truth
test also nullifies the result when the bad-bucket average is 0. -/
theorem claim_C7_counterexample :
    (AppService.calculate_sleep_analysis sleepBatchA).avg_tics_good_sleep = some (13/10) ∧
    (AppService.calculate_sleep_analysis sleepBatchA).avg_tics_bad_sleep = some 0 ∧
    AppService.goodBucket sleepBatchA ≠ [] ∧
    AppService.badBucket sleepBatchA ≠ [] ∧
    (AppService.calculate_sleep_analysis sleepBatchA).percent_difference = none := by
  have h1 : AppService.loggedPairs sleepBatchA
      = [(3, 0), (3, 0), (8, 0), (8, 0), (7/2, 4), (4, 5), (4, 6)] := by
    norm_num [AppService.loggedPairs, AppService.recentOf, sleepBatchA, sleepRec,
      List.filterMap]
  have h2 : AppService.sortedPairs sleepBatchA
      = [(0, 3), (0, 3), (0, 8), (0, 8), (4, 7/2), (5, 4), (6, 4)] := by
    unfold AppService.sortedPairs
    rw [h1]
    norm_num [List.insertionSort, List.orderedInsert]
  have h3 : AppService.bestThirdSleep sleepBatchA = [3, 3] := by
    unfold AppService.bestThirdSleep
    rw [h2, h1]
    norm_num
  have h4 : AppService.optimalSleep sleepBatchA = 3 := by
    unfold AppService.optimalSleep
    rw [h3, if_pos (show ([3, 3] : List ℚ) ≠ [] by simp)]
    norm_num [roundQ, roundHalfEvenQ, qmean]
  have h5 : AppService.goodBucket sleepBatchA = [0, 0, 4] := by
    unfold AppService.goodBucket
    rw [h1, h4]
    norm_num [List.filterMap, abs_le]
  have h6 : AppService.badBucket sleepBatchA = [0, 0] := by
    unfold AppService.badBucket
    rw [h1, h4]
    norm_num [List.filterMap, lt_abs]
  have h7 : AppService.avgGoodTics sleepBatchA = some (13/10) := by
    unfold AppService.avgGoodTics
    rw [h5, if_pos (show ([0, 0, 4] : List ℚ) ≠ [] by simp)]
    norm_num [roundQ, roundHalfEvenQ, qmean]
  have h8 : AppService.avgBadTics sleepBatchA = some 0 := by
    unfold AppService.avgBadTics
    rw [h6, if_pos (show ([0, 0] : List ℚ) ≠ [] by simp)]
    norm_num [roundQ, roundHalfEvenQ, qmean]
  have h9 : AppService.percentDiff sleepBatchA = none := by
    unfold AppService.percentDiff
    rw [h7, h8]
    norm_num
  have hcalc : AppService.calculate_sleep_analysis sleepBatchA =
      { success := true
        avg_sleep_hours := some (AppService.avgSleep sleepBatchA)
        optimal_sleep_hours := some (AppService.optimalSleep sleepBatchA)
        avg_tics_good_sleep := AppService.avgGoodTics sleepBatchA
        avg_tics_bad_sleep := AppService.avgBadTics sleepBatchA
        percent_difference := AppService.percentDiff sleepBatchA
        days_analyzed := (AppService.loggedPairs sleepBatchA).length } := by
    unfold AppService.calculate_sleep_analysis
    rw [if_neg (by norm_num [sleepBatchA]), if_neg (by rw [h1]; norm_num)]
  rw [hcalc]
  exact ⟨h7, h8, by rw [h5]; simp, by rw [h6]; simp, h9⟩

/-- Claim C7 witness: on sleepBatchB the buckets average 1.3 and 4 tics and
percent_difference is round((4 - 1.3) / 1.3 * 100) = 208. -/
theorem claim_C7_witness :
    (AppService.calculate_sleep_analysis sleepBatchB).percent_difference = some 208 := by
  have h1 : AppService.loggedPairs sleepBatchB
      = [(3, 0), (3, 0), (8, 4), (8, 4), (7/2, 4), (4, 5), (4, 6)] := by
    norm_num [AppService.loggedPairs, AppService.recentOf, sleepBatchB, sleepRec,
      List.filterMap]
  have h2 : AppService.sortedPairs sleepBatchB
      = [(0, 3), (0, 3), (4, 8), (4, 8), (4, 7/2), (5, 4), (6, 4)] := by
    unfold AppService.sortedPairs
    rw [h1]
    norm_num [List.insertionSort, List.orderedInsert]
  have h3 : AppService.bestThirdSleep sleepBatchB = [3, 3] := by
    unfold AppService.bestThirdSleep
    rw [h2, h1]
    norm_num
  have h4 : AppService.optimalSleep sleepBatchB = 3 := by
    unfold AppService.optimalSleep
    rw [h3, if_pos (show ([3, 3] : List ℚ) ≠ [] by simp)]
    norm_num [roundQ, roundHalfEvenQ, qmean]
  have h5 : AppService.goodBucket sleepBatchB = [0, 0, 4] := by
    unfold AppService.goodBucket
    rw [h1, h4]
    norm_num [List.filterMap, abs_le]
  have h6 : AppService.badBucket sleepBatchB = [4, 4] := by
    unfold AppService.badBucket
    rw [h1, h4]
    norm_num [List.filterMap, lt_abs]
  have hmain := (claim_C7_amended sleepBatchB (by norm_num [sleepBatchB])
    (by rw [h1]; norm_num)).1
  rw [h5, h6] at hmain
  rw [hmain (by simp) (by simp) (by norm_num [roundQ, roundHalfEvenQ, qmean])
    (by norm_num [roundQ, roundHalfEvenQ, qmean])]
  norm_num [roundQ, roundHalfEvenQ, qmean]

theorem sum_map_sq_nonneg (l : List ℚ) (m : ℚ) :
    0 ≤ (l.map (fun a => (a - m) ^ 2)).sum := by
  apply List.sum_nonneg
  intro z hz
  obtain ⟨b, _, rfl⟩ := List.mem_map.mp hz
  positivity

theorem sqDev_nonneg (l : List ℚ) : 0 ≤ sqDev l := by
  unfold sqDev
  exact sum_map_sq_nonneg l (qmean l)

/-- Discrete Cauchy-Schwarz along a zip: the squared cross sum is bounded
by the product of the two squared-deviation sums. -/
theorem zip_cs (x : List ℚ) (mx my : ℚ) : ∀ y : List ℚ, x.length = y.length →
    (((x.zip y).map (fun p => (p.1 - mx) * (p.2 - my))).sum) ^ 2
      ≤ ((x.map (fun a => (a - mx) ^ 2)).sum) * ((y.map (fun b => (b - my) ^ 2)).sum) := by
  induction x with
  | nil =>
    intro y h
    simp
  | cons a t ih =>
    intro y h
    cases y with
    | nil => simp at h
    | cons b u =>
      have IH := ih u (by simpa using h)
      simp only [List.zip_cons_cons, List.map_cons, List.sum_cons]
      set c := (a - mx) * (b - my) with hc
      set S := ((t.zip u).map (fun p => (p.1 - mx) * (p.2 - my))).sum with hS
      set A := (t.map (fun a => (a - mx) ^ 2)).sum with hA
      set B := (u.map (fun b => (b - my) ^ 2)).sum with hB
      have hA0 : 0 ≤ A := sum_map_sq_nonneg t mx
      have hB0 : 0 ≤ B := sum_map_sq_nonneg u my
      have hc2 : c ^ 2 = (a - mx) ^ 2 * (b - my) ^ 2 := by rw [hc]; ring
      have h1 : (2 * c * S) ^ 2 ≤ 4 * ((a - mx) ^ 2 * (b - my) ^ 2) * (A * B) := by
        have he : (2 * c * S) ^ 2 = 4 * ((a - mx) ^ 2 * (b - my) ^ 2) * S ^ 2 := by
          rw [hc]; ring
        rw [he]
        exact mul_le_mul_of_nonneg_left IH (by positivity)
      have h2 : 4 * ((a - mx) ^ 2 * (b - my) ^ 2) * (A * B)
          ≤ ((a - mx) ^ 2 * B + A * (b - my) ^ 2) ^ 2 := by
        nlinarith [sq_nonneg ((a - mx) ^ 2 * B - A * (b - my) ^ 2)]
      have h3 : (0:ℚ) ≤ (a - mx) ^ 2 * B + A * (b - my) ^ 2 :=
        add_nonneg (mul_nonneg (sq_nonneg _) hB0) (mul_nonneg hA0 (sq_nonneg _))
      have h4 : 2 * c * S ≤ (a - mx) ^ 2 * B + A * (b - my) ^ 2 :=
        le_of_sq_le_sq (h1.trans h2) h3
      nlinarith [IH, h4, hc2]

theorem covariance_sq_le (x y : List ℚ) (h : x.length = y.length) :
    (AppService.covariance x y) ^ 2 ≤ sqDev x * sqDev y := by
  unfold AppService.covariance sqDev
  exact zip_cs x (qmean x) (qmean y) y h

theorem covariance_comm (x y : List ℚ) :
    AppService.covariance x y = AppService.covariance y x := by
  unfold AppService.covariance
  rw [show y.zip x = (x.zip y).map Prod.swap from (List.zip_swap x y).symm, List.map_map]
  congr 1
  apply List.map_congr_left
  intro p _
  simp only [Function.comp_apply, Prod.fst_swap, Prod.snd_swap]
  ring

theorem sqDev_eq_zero_of_const (l : List ℚ) (h : ∀ a ∈ l, ∀ b ∈ l, a = b) :
    sqDev l = 0 := by
  cases l with
  | nil => rfl
  | cons a t =>
    have hmean : qmean (a :: t) = a := by
      have hall : ∀ b ∈ a :: t, b = a := fun b hb => h b hb a (List.mem_cons_self a t)
      have hlen : (((a :: t).length : ℚ)) ≠ 0 := by
        have : (0:ℚ) < ((a :: t).length : ℚ) := by
          exact_mod_cast Nat.succ_pos t.length
        exact ne_of_gt this
      unfold qmean
      rw [List.sum_eq_card_nsmul (a :: t) a hall, nsmul_eq_mul,
        mul_div_cancel_left₀ a hlen]
    unfold sqDev
    apply List.sum_eq_zero
    intro z hz
    obtain ⟨b, hb, rfl⟩ := List.mem_map.mp hz
    rw [hmean, h b hb a (List.mem_cons_self a t), sub_self]
    norm_num

theorem roundHalfEvenR_le_of_le (z : ℝ) (k : ℤ) (hk : z ≤ (k:ℝ)) :
    AppService.roundHalfEvenR z ≤ k := by
  have hfl : ⌊z⌋ ≤ k := by
    have := Int.floor_le_floor hk
    rwa [Int.floor_intCast] at this
  have hflr : ((⌊z⌋:ℤ):ℝ) ≤ z := Int.floor_le z
  unfold AppService.roundHalfEvenR
  split_ifs with h1 h2 h3
  · exact hfl
  · rcases lt_or_eq_of_le hfl with hlt | heq
    · omega
    · exfalso
      have hzle : z ≤ ((⌊z⌋:ℤ):ℝ) := by rw [heq]; exact hk
      linarith
  · exact hfl
  · rcases lt_or_eq_of_le hfl with hlt | heq
    · omega
    · exfalso
      have hzle : z ≤ ((⌊z⌋:ℤ):ℝ) := by rw [heq]; exact hk
      have h12 : z - ⌊z⌋ = 1/2 := le_antisymm (not_lt.mp h2) (not_lt.mp h1)
      linarith

theorem le_roundHalfEvenR_of_le (z : ℝ) (k : ℤ) (hk : (k:ℝ) ≤ z) :
    k ≤ AppService.roundHalfEvenR z := by
  have hfl : k ≤ ⌊z⌋ := Int.le_floor.mpr hk
  unfold AppService.roundHalfEvenR
  split_ifs <;> omega

theorem roundR2_bounds (r : ℝ) (h1 : -1 ≤ r) (h2 : r ≤ 1) :
    -1 ≤ AppService.roundR2 r ∧ AppService.roundR2 r ≤ 1 := by
  unfold AppService.roundR2
  have hu : AppService.roundHalfEvenR (r * 100) ≤ 100 :=
    roundHalfEvenR_le_of_le _ 100 (by push_cast; linarith)
  have hl : (-100 : ℤ) ≤ AppService.roundHalfEvenR (r * 100) :=
    le_roundHalfEvenR_of_le _ (-100) (by push_cast; linarith)
  constructor
  · rw [le_div_iff₀ (by norm_num : (0:ℝ) < 100)]
    have : ((-100 : ℤ) : ℝ) ≤ (AppService.roundHalfEvenR (r * 100) : ℝ) := by
      exact_mod_cast hl
    push_cast at this ⊢
    linarith
  · rw [div_le_one (by norm_num : (0:ℝ) < 100)]
    have : ((AppService.roundHalfEvenR (r * 100) : ℤ) : ℝ) ≤ ((100 : ℤ) : ℝ) := by
      exact_mod_cast hu
    push_cast at this ⊢
    linarith

/-- Claim C6.  On equal-length lists the Pearson correlation of the source
is symmetric in its arguments, lies within -1 and 1, and is exactly 0
whenever fewer than 2 points exist or either list is constant (zero
variance). -/
theorem claim_C6_pearson (x y : List ℚ) (h : x.length = y.length) :
    AppService.calculate_pearson_correlation x y
      = AppService.calculate_pearson_correlation y x ∧
    (-1 ≤ AppService.calculate_pearson_correlation x y ∧
      AppService.calculate_pearson_correlation x y ≤ 1) ∧
    ((x.length < 2 ∨ (∀ a ∈ x, ∀ b ∈ x, a = b) ∨ (∀ a ∈ y, ∀ b ∈ y, a = b)) →
      AppService.calculate_pearson_correlation x y = 0) := by
  refine ⟨?_, ?_, ?_⟩
  · unfold AppService.calculate_pearson_correlation
    refine if_congr or_comm rfl (if_congr or_comm rfl ?_)
    rw [covariance_comm]
    congr 1
    ring
  · unfold AppService.calculate_pearson_correlation
    by_cases hc1 : x.length < 2 ∨ y.length < 2
    · rw [if_pos hc1]
      norm_num
    · rw [if_neg hc1]
      by_cases hc2 : Real.sqrt ((sqDev x : ℚ) : ℝ) = 0 ∨ Real.sqrt ((sqDev y : ℚ) : ℝ) = 0
      · rw [if_pos hc2]
        norm_num
      · rw [if_neg hc2]
        push_neg at hc2
        obtain ⟨hsx, hsy⟩ := hc2
        have hsx0 : 0 < Real.sqrt ((sqDev x : ℚ) : ℝ) :=
          lt_of_le_of_ne (Real.sqrt_nonneg _) (Ne.symm hsx)
        have hsy0 : 0 < Real.sqrt ((sqDev y : ℚ) : ℝ) :=
          lt_of_le_of_ne (Real.sqrt_nonneg _) (Ne.symm hsy)
        have hprod : 0 < Real.sqrt ((sqDev x : ℚ) : ℝ) * Real.sqrt ((sqDev y : ℚ) : ℝ) :=
          mul_pos hsx0 hsy0
        have hxnn : (0:ℚ) ≤ sqDev x := sqDev_nonneg x
        have hynn : (0:ℚ) ≤ sqDev y := sqDev_nonneg y
        have hsq : (Real.sqrt ((sqDev x : ℚ) : ℝ) * Real.sqrt ((sqDev y : ℚ) : ℝ)) ^ 2
            = ((sqDev x : ℚ) : ℝ) * ((sqDev y : ℚ) : ℝ) := by
          rw [mul_pow, Real.sq_sqrt (by exact_mod_cast hxnn),
            Real.sq_sqrt (by exact_mod_cast hynn)]
        have hcs : ((AppService.covariance x y : ℚ) : ℝ) ^ 2
            ≤ (Real.sqrt ((sqDev x : ℚ) : ℝ) * Real.sqrt ((sqDev y : ℚ) : ℝ)) ^ 2 := by
          rw [hsq]
          exact_mod_cast covariance_sq_le x y h
        have hub : ((AppService.covariance x y : ℚ) : ℝ)
            ≤ Real.sqrt ((sqDev x : ℚ) : ℝ) * Real.sqrt ((sqDev y : ℚ) : ℝ) :=
          le_of_sq_le_sq hcs hprod.le
        have hlb : -(Real.sqrt ((sqDev x : ℚ) : ℝ) * Real.sqrt ((sqDev y : ℚ) : ℝ))
            ≤ ((AppService.covariance x y : ℚ) : ℝ) := by
          have hneg : (-((AppService.covariance x y : ℚ) : ℝ)) ^ 2
              ≤ (Real.sqrt ((sqDev x : ℚ) : ℝ) * Real.sqrt ((sqDev y : ℚ) : ℝ)) ^ 2 := by
            rwa [neg_sq]
          have := le_of_sq_le_sq hneg hprod.le
          linarith
        have hr1 : -1 ≤ ((AppService.covariance x y : ℚ) : ℝ)
            / (Real.sqrt ((sqDev x : ℚ) : ℝ) * Real.sqrt ((sqDev y : ℚ) : ℝ)) := by
          rw [le_div_iff₀ hprod]
          linarith
        have hr2 : ((AppService.covariance x y : ℚ) : ℝ)
            / (Real.sqrt ((sqDev x : ℚ) : ℝ) * Real.sqrt ((sqDev y : ℚ) : ℝ)) ≤ 1 := by
          rw [div_le_one hprod]
          exact hub
        exact roundR2_bounds _ hr1 hr2
  · intro hcase
    unfold AppService.calculate_pearson_correlation
    rcases hcase with hlen | hcx | hcy
    · rw [if_pos (Or.inl hlen)]
    · by_cases hl2 : x.length < 2 ∨ y.length < 2
      · rw [if_pos hl2]
      · have hz : Real.sqrt ((sqDev x : ℚ) : ℝ) = 0 := by
          rw [sqDev_eq_zero_of_const x hcx]
          simp
        rw [if_neg hl2, if_pos (Or.inl hz)]
    · by_cases hl2 : x.length < 2 ∨ y.length < 2
      · rw [if_pos hl2]
      · have hz : Real.sqrt ((sqDev y : ℚ) : ℝ) = 0 := by
          rw [sqDev_eq_zero_of_const y hcy]
          simp
        rw [if_neg hl2, if_pos (Or.inr hz)]

/-- Claim C6 witness: with x = [1, 2] and y = [5, 5] the second list has
zero variance, so the correlation is exactly 0, and the function is
symmetric on this pair. -/
theorem claim_C6_witness :
    AppService.calculate_pearson_correlation [1, 2] [5, 5] = 0 ∧
    AppService.calculate_pearson_correlation [1, 2] [5, 5]
      = AppService.calculate_pearson_correlation [5, 5] [1, 2] :=
  ⟨(claim_C6_pearson [1, 2] [5, 5] rfl).2.2
      (Or.inr (Or.inr (by
        intro a ha b hb
        simp only [List.mem_cons, List.not_mem_nil, or_false] at ha hb
        rcases ha with rfl | rfl <;> rcases hb with rfl | rfl <;> rfl))),
   (claim_C6_pearson [1, 2] [5, 5] rfl).1⟩

end MyFlow
